import Mathlib

/-!
Formal model of `src/random_forest_example/load_ONNX_model.cpp`.

The program is a single straight-line `main` wrapped in one
`try { ... } catch (const Ort::Exception&)` block.  It opens an ONNX
session on a hard-coded model path, prints the declared input/output
node counts and names, builds a hard-coded `1x4` float input tensor,
runs inference, prints the first scalar of the first output as
`Prediction: <float>`, and finally frees the allocator-owned name
strings.

The ONNX runtime library itself is not part of the repository, so its
behaviour is modelled abstractly by an `OrtWorld` record: which model
files are readable and valid, the model's declared input/output names
and input shape, the model's (non-stochastic) output function, the
library error messages, and whether a standard-library (non-`Ort`)
exception occurs during the run.  The semantics of the two library
calls that can fail (`Ort::Session` construction and `Session::Run`)
are modelled from the spec's stated invariants, since the library code
is external to the repository.

`tryBody` follows the source's try block line by line; `runProgram`
adds the catch clause and the returned exit code.  Both record every
line printed to standard output, every name string acquired from the
session allocator, every name passed to `allocator.Free`, every path a
session was opened on, and the number of `Run` invocations, so that
resource-hygiene and no-retry properties can be stated.
-/

namespace LoadOnnxModel

/-- Exceptions that can arise inside the try block of `main`: the
runtime library's exception type `Ort::Exception` (carrying the
library-provided message) or any other C++ exception type, such as a
standard-library allocation failure. -/
inductive Exc where
  | ortException (msg : String)
  | otherException (msg : String)
deriving DecidableEq

/-- Equality of `Except` results is decidable when both component
types have decidable equality. -/
instance instDecEqExcept {e a : Type} [DecidableEq e] [DecidableEq a] :
    DecidableEq (Except e a) := fun x y =>
  match x, y with
  | .ok v, .ok w =>
      if h : v = w then .isTrue (by rw [h]) else
        .isFalse (by intro hc; cases hc; exact h rfl)
  | .error v, .error w =>
      if h : v = w then .isTrue (by rw [h]) else
        .isFalse (by intro hc; cases hc; exact h rfl)
  | .ok _, .error _ => .isFalse (by intro hc; cases hc)
  | .error _, .ok _ => .isFalse (by intro hc; cases hc)

/-- One line printed to standard output by the program, in the order
the source prints them (source lines 34, 39, 46, 51, 71, 82). -/
inductive OutLine where
  | numInputs (n : Nat)
  | inputName (i : Nat) (name : String)
  | numOutputs (n : Nat)
  | outputName (i : Nat) (name : String)
  | prediction (v : Int)
  | errorMsg (msg : String)
deriving DecidableEq

/-- Whether a printed line is part of the input/output signature
listing (node counts and node names), as opposed to the prediction
line or an error report. -/
def OutLine.isSignatureLine : OutLine → Bool
  | .numInputs _ => true
  | .inputName _ _ => true
  | .numOutputs _ => true
  | .outputName _ _ => true
  | .prediction _ => false
  | .errorMsg _ => false

/-- Modelled from the spec: the behaviour of the external ONNX runtime
library and of the ambient C++ runtime, which are not part of this
repository.  `files` is the set of readable, valid serialized model
files; `inputNames`, `outputNames` and `declaredInputShape` are the
model's declared signature; `modelFn` is the model's (non-stochastic)
function from the input values to the first scalar of the first output;
`loadErrMsg` and `runErrMsg` are the library-provided failure messages;
`stdExc` records a standard-library (non-`Ort`) exception raised during
the body, if any; `ambient` is invocation-specific data (clock, process
id, ...) that the program never consults. -/
structure OrtWorld where
  files : List String
  inputNames : List String
  outputNames : List String
  declaredInputShape : List Int
  modelFn : List Int → Int
  loadErrMsg : String
  runErrMsg : String
  stdExc : Option String
  ambient : Nat

/-- The hard-coded model path (source line 25). -/
def model_path : String := "../random_forest_model_v9.onnx"

/-- The hard-coded input tensor values `{1.0f, 2.0f, 3.0f, 4.0f}`
(source line 56). -/
def input_tensor_values : List Int := [1, 2, 3, 4]

/-- The hard-coded input tensor shape `{1, 4}` (source line 57). -/
def input_tensor_shape : List Int := [1, 4]

/-- Modelled from the spec: `Ort::Session` construction (source line
26) opens the model file; a non-existent or invalid model file makes
session construction raise the library exception kind. -/
def sessionOpen (w : OrtWorld) (path : String) : Except Exc Unit :=
  if path ∈ w.files then .ok () else .error (.ortException w.loadErrMsg)

/-- Modelled from the spec: `session.Run` (source line 64).  Per the
spec's invariant, the supplied input tensor's shape must exactly match
the model's declared input signature, or the call fails with the
library exception kind; on success the first scalar of the first
output tensor is the model's function of the input values. -/
def sessionRun (w : OrtWorld) (values : List Int) (shape : List Int) :
    Except Exc Int :=
  if shape = w.declaredInputShape then .ok (w.modelFn values)
  else .error (.ortException w.runErrMsg)

/-- The observable state produced by the try block (source lines
17-79): lines printed, name strings acquired from the session
allocator via `GetInputNameAllocated`/`GetOutputNameAllocated` +
`release()`, names passed to `allocator.Free`, paths a session was
opened on, number of `Run` invocations, and whether the block ran to
completion or raised an exception. -/
structure BodyResult where
  output : List OutLine
  acquiredNames : List String
  freedNames : List String
  openedPaths : List String
  runCalls : Nat
  outcome : Except Exc Unit
deriving DecidableEq

/-- The lines printed by the input-name loop (source lines 37-41): one
`Input i : name=...` line per declared input, in index order. -/
def inputNameLines (names : List String) : List OutLine :=
  names.enum.map fun p => OutLine.inputName p.1 p.2

/-- The lines printed by the output-name loop (source lines 49-53):
one `Output i : name=...` line per declared output, in index order. -/
def outputNameLines (names : List String) : List OutLine :=
  names.enum.map fun p => OutLine.outputName p.1 p.2

/-- The try block of `main` (source lines 17-79), followed line by
line.  Session construction may raise; the `std::vector` allocation at
source line 33 is the modelled point where a non-library exception can
occur; the name loops acquire one allocator-owned string per node and
print it; `Run` may raise; on success the first output scalar is
printed and then every acquired name is freed exactly once (source
lines 74-79).  Note the free loops are inside the try block, so any
exception raised before them skips them. -/
def tryBody (w : OrtWorld) : BodyResult :=
  match sessionOpen w model_path with
  | .error e =>
      { output := [], acquiredNames := [], freedNames := [],
        openedPaths := [model_path], runCalls := 0, outcome := .error e }
  | .ok () =>
    match w.stdExc with
    | some m =>
        { output := [], acquiredNames := [], freedNames := [],
          openedPaths := [model_path], runCalls := 0,
          outcome := .error (.otherException m) }
    | none =>
      let printed :=
        [OutLine.numInputs w.inputNames.length]
          ++ inputNameLines w.inputNames
          ++ [OutLine.numOutputs w.outputNames.length]
          ++ outputNameLines w.outputNames
      let acquired := w.inputNames ++ w.outputNames
      match sessionRun w input_tensor_values input_tensor_shape with
      | .error e =>
          { output := printed, acquiredNames := acquired, freedNames := [],
            openedPaths := [model_path], runCalls := 1, outcome := .error e }
      | .ok v =>
          { output := printed ++ [OutLine.prediction v],
            acquiredNames := acquired, freedNames := acquired,
            openedPaths := [model_path], runCalls := 1, outcome := .ok () }

/-- The observable result of one execution of the process.  `exit` is
`.ok c` when `main` returned exit code `c`, and `.error m` when an
exception of a non-library type escaped `main` uncaught (the catch
clause at source line 81 matches only `const Ort::Exception&`). -/
structure ProgResult where
  output : List OutLine
  acquiredNames : List String
  freedNames : List String
  openedPaths : List String
  runCalls : Nat
  exit : Except String Int
deriving DecidableEq

/-- The catch clause and return statements of `main` (source lines
80-86): a caught `Ort::Exception` prints `Error running model
inference: <msg>` and returns `-1`; normal completion of the try block
returns `0`; an exception of any other type does not match the catch
clause and escapes `main` uncaught. -/
def applyCatch (b : BodyResult) : ProgResult :=
  match b.outcome with
  | .ok () =>
      { output := b.output, acquiredNames := b.acquiredNames,
        freedNames := b.freedNames, openedPaths := b.openedPaths,
        runCalls := b.runCalls, exit := .ok 0 }
  | .error (.ortException m) =>
      { output := b.output ++ [OutLine.errorMsg m],
        acquiredNames := b.acquiredNames, freedNames := b.freedNames,
        openedPaths := b.openedPaths, runCalls := b.runCalls,
        exit := .ok (-1) }
  | .error (.otherException m) =>
      { output := b.output, acquiredNames := b.acquiredNames,
        freedNames := b.freedNames, openedPaths := b.openedPaths,
        runCalls := b.runCalls, exit := .error m }

/-- `main` (source lines 15-86): run the try block under the single
top-level exception boundary.  `main` is declared with no parameters,
so the argument vector `argv` is ignored entirely. -/
def runProgram (w : OrtWorld) (_argv : List String) : ProgResult :=
  applyCatch (tryBody w)

/-- Inference succeeds: the model file loads, no foreign exception
intervenes, and the supplied tensor shape matches the model's declared
input shape. -/
def inferenceSucceeds (w : OrtWorld) : Prop :=
  model_path ∈ w.files ∧ w.stdExc = none ∧
    input_tensor_shape = w.declaredInputShape

/-- A runtime library error (`Ort::Exception`) is raised during the
run: either session construction fails on the model file, or the file
loads, no foreign exception intervenes, and `Run` rejects the supplied
tensor shape. -/
def ortErrorRaised (w : OrtWorld) : Prop :=
  model_path ∉ w.files ∨
    (model_path ∈ w.files ∧ w.stdExc = none ∧
      input_tensor_shape ≠ w.declaredInputShape)

/-- A library model in which the hard-coded model path is a readable,
valid model with one input named "input" of declared shape `[1, 4]` and
one output. -/
def wGood : OrtWorld :=
  { files := ["../random_forest_model_v9.onnx"],
    inputNames := ["input"], outputNames := ["output_label"],
    declaredInputShape := [1, 4], modelFn := fun _ => 7,
    loadErrMsg := "Load model from ../random_forest_model_v9.onnx failed",
    runErrMsg := "Got invalid dimensions for input",
    stdExc := none, ambient := 0 }

/-- Like `wGood` but the model's declared input shape is `[1, 3]`, so
the hard-coded `1x4` input tensor is rejected by `Run`. -/
def wMismatch : OrtWorld := { wGood with declaredInputShape := [1, 3] }

/-- A library model in which no file at the hard-coded model path
exists, so session construction raises. -/
def wMissing : OrtWorld := { wGood with files := [] }

/-- Like `wGood` but a standard-library allocation failure
(`std::bad_alloc`, not an `Ort::Exception`) occurs inside the try
block. -/
def wStdExc : OrtWorld := { wGood with stdExc := some "std::bad_alloc" }

/-- Like `wGood` but with different invocation-specific ambient data
(clock, process id, ...). -/
def wGood2 : OrtWorld := { wGood with ambient := 1 }

/-- Helper: the try block opens a session exactly once, on the
hard-coded model path, on every control path. -/
theorem tryBody_openedPaths (w : OrtWorld) :
    (tryBody w).openedPaths = [model_path] := by
  unfold tryBody
  repeat' split
  all_goals rfl

/-- Helper: the try block invokes `Run` at most once on every control
path. -/
theorem tryBody_runCalls (w : OrtWorld) : (tryBody w).runCalls ≤ 1 := by
  unfold tryBody
  repeat' split
  all_goals simp

/-- Helper: `main` passes the try block's opened-paths record through
unchanged on every control path. -/
theorem applyCatch_openedPaths (b : BodyResult) :
    (applyCatch b).openedPaths = b.openedPaths := by
  rcases h : b.outcome with e | u
  · cases e <;> simp [applyCatch, h]
  · cases u; simp [applyCatch, h]

/-- Helper: `main` passes the try block's acquired- and freed-name
records through unchanged on every control path. -/
theorem applyCatch_names (b : BodyResult) :
    (applyCatch b).acquiredNames = b.acquiredNames ∧
      (applyCatch b).freedNames = b.freedNames := by
  rcases h : b.outcome with e | u
  · cases e <;> simp [applyCatch, h]
  · cases u; simp [applyCatch, h]

theorem runProgram_openedPaths (w : OrtWorld) (argv : List String) :
    (runProgram w argv).openedPaths = [model_path] := by
  rw [runProgram, applyCatch_openedPaths, tryBody_openedPaths]

/-- Helper: `main` passes the try block's run-call count through
unchanged on every control path. -/
theorem applyCatch_runCalls (b : BodyResult) :
    (applyCatch b).runCalls = b.runCalls := by
  rcases h : b.outcome with e | u
  · cases e <;> simp [applyCatch, h]
  · cases u; simp [applyCatch, h]

theorem runProgram_runCalls (w : OrtWorld) (argv : List String) :
    (runProgram w argv).runCalls ≤ 1 := by
  rw [runProgram, applyCatch_runCalls]
  exact tryBody_runCalls w

/-- C1 (code-bug evidence): on the run where `Run` raises a library
error after the name strings were acquired (here: a valid model file
whose declared input shape is `[1, 3]`, rejecting the hard-coded `1x4`
tensor), the program acquires the names "input" and "output_label" but
frees nothing.  The `allocator.Free` loops at source lines 74-79 sit
inside the try block after `Run`, so the catch clause skips them and
both name strings leak, contradicting the claim that every acquired
name string is released exactly once on every exit path. -/
theorem c1_names_leak_when_run_raises :
    (runProgram wMismatch []).acquiredNames = ["input", "output_label"] ∧
    (runProgram wMismatch []).freedNames = [] ∧
    (runProgram wMismatch []).exit = Except.ok (-1) := by
  refine ⟨?_, ?_, ?_⟩ <;> rfl

/-- C2: for every run in which the supplied input tensor's shape
differs from the model's declared input shape (and no foreign,
non-library exception intervenes), the program fails with the single
runtime-inference-error kind — exit code `-1` with a reported error
line as its last output — and prints no `Prediction:` line. -/
theorem c2_shape_mismatch_fails (w : OrtWorld) (argv : List String)
    (hstd : w.stdExc = none)
    (hsh : input_tensor_shape ≠ w.declaredInputShape) :
    (runProgram w argv).exit = Except.ok (-1) ∧
    (∃ m, (runProgram w argv).output.getLast? = some (OutLine.errorMsg m)) ∧
    ∀ v, OutLine.prediction v ∉ (runProgram w argv).output := by
  by_cases hf : model_path ∈ w.files
  · refine ⟨?_, ⟨w.runErrMsg, ?_⟩, ?_⟩
    · simp [runProgram, applyCatch, tryBody, sessionOpen, sessionRun,
        hf, hstd, hsh]
    · have hout2 : (runProgram w argv).output
          = ([OutLine.numInputs w.inputNames.length]
              ++ inputNameLines w.inputNames
              ++ [OutLine.numOutputs w.outputNames.length]
              ++ outputNameLines w.outputNames)
            ++ [OutLine.errorMsg w.runErrMsg] := by
        simp [runProgram, applyCatch, tryBody, sessionOpen, sessionRun,
          hf, hstd, hsh]
      rw [hout2, List.getLast?_concat]
    · simp [runProgram, applyCatch, tryBody, sessionOpen, sessionRun,
        hf, hstd, hsh, inputNameLines, outputNameLines]
  · refine ⟨?_, ⟨w.loadErrMsg, ?_⟩, ?_⟩ <;>
      simp [runProgram, applyCatch, tryBody, sessionOpen, hf]

/-- C2 witness: a concrete world whose model declares input shape
`[1, 3]`. -/
theorem c2_shape_mismatch_fails_witness :
    (runProgram wMismatch []).exit = Except.ok (-1) ∧
    (∃ m, (runProgram wMismatch []).output.getLast?
        = some (OutLine.errorMsg m)) ∧
    ∀ v, OutLine.prediction v ∉ (runProgram wMismatch []).output :=
  c2_shape_mismatch_fails wMismatch [] rfl (by decide)

/-- C3: the process exit status is `0` exactly when inference succeeds
and the distinguished negative code `-1` exactly when a runtime library
error is raised. -/
theorem c3_exit_status (w : OrtWorld) (argv : List String) :
    ((runProgram w argv).exit = Except.ok 0 ↔ inferenceSucceeds w) ∧
    ((runProgram w argv).exit = Except.ok (-1) ↔ ortErrorRaised w) := by
  by_cases hf : model_path ∈ w.files
  · rcases hstd : w.stdExc with _ | m
    · by_cases hsh : input_tensor_shape = w.declaredInputShape
      · simp [runProgram, applyCatch, tryBody, sessionOpen, sessionRun,
          inferenceSucceeds, ortErrorRaised, hf, hstd, hsh]
      · simp [runProgram, applyCatch, tryBody, sessionOpen, sessionRun,
          inferenceSucceeds, ortErrorRaised, hf, hstd, hsh]
    · simp [runProgram, applyCatch, tryBody, sessionOpen,
        inferenceSucceeds, ortErrorRaised, hf, hstd]
  · simp [runProgram, applyCatch, tryBody, sessionOpen,
      inferenceSucceeds, ortErrorRaised, hf]

/-- C3 witness: the exit-status characterization evaluated on a
concrete valid world. -/
theorem c3_exit_status_witness :
    ((runProgram wGood []).exit = Except.ok 0 ↔ inferenceSucceeds wGood) ∧
    ((runProgram wGood []).exit = Except.ok (-1) ↔ ortErrorRaised wGood) :=
  c3_exit_status wGood []

/-- C4: every library failure inside the try block — session
construction, tensor construction or execution — is caught at the
single top-level boundary, reported on standard output with the
library-provided message, and converted to the non-zero exit code
`-1`; no retry occurs (the session is opened exactly once, on the
hard-coded path, and `Run` is invoked at most once), so failure is
fatal to the run. -/
theorem c4_failures_caught_at_top_level (w : OrtWorld) (argv : List String)
    (m : String) (h : (tryBody w).outcome = .error (.ortException m)) :
    (runProgram w argv).output
        = (tryBody w).output ++ [OutLine.errorMsg m] ∧
    (runProgram w argv).exit = Except.ok (-1) ∧
    (runProgram w argv).runCalls ≤ 1 ∧
    (runProgram w argv).openedPaths = [model_path] := by
  refine ⟨?_, ?_, runProgram_runCalls w argv, runProgram_openedPaths w argv⟩
  · simp [runProgram, applyCatch, h]
  · simp [runProgram, applyCatch, h]

/-- C4 witness: a concrete world with no model file, so session
construction raises the library exception. -/
theorem c4_failures_caught_witness :
    (runProgram wMissing ["x"]).output
        = (tryBody wMissing).output
            ++ [OutLine.errorMsg wMissing.loadErrMsg] ∧
    (runProgram wMissing ["x"]).exit = Except.ok (-1) ∧
    (runProgram wMissing ["x"]).runCalls ≤ 1 ∧
    (runProgram wMissing ["x"]).openedPaths = [model_path] :=
  c4_failures_caught_at_top_level wMissing ["x"] wMissing.loadErrMsg
    (by decide)

/-- C5: for every world in which no readable, valid model file exists
at the hard-coded path, the run fails with the runtime-inference-error
kind: session construction raises, the single reported error line is
the whole output, the exit code is `-1`, and no prediction is
printed. -/
theorem c5_missing_model_file (w : OrtWorld) (argv : List String)
    (h : model_path ∉ w.files) :
    (runProgram w argv).exit = Except.ok (-1) ∧
    (runProgram w argv).output = [OutLine.errorMsg w.loadErrMsg] ∧
    ∀ v, OutLine.prediction v ∉ (runProgram w argv).output := by
  simp [runProgram, applyCatch, tryBody, sessionOpen, h]

/-- C5 witness: a concrete world with no model files at all. -/
theorem c5_missing_model_file_witness :
    (runProgram wMissing []).exit = Except.ok (-1) ∧
    (runProgram wMissing []).output
        = [OutLine.errorMsg wMissing.loadErrMsg] ∧
    ∀ v, OutLine.prediction v ∉ (runProgram wMissing []).output :=
  c5_missing_model_file wMissing [] (by decide)

/-- C6: whenever the model loads and no foreign exception intervenes,
the program's output starts with exactly the model's declared
signature — the input count, each declared input name at its index in
declaration order, the output count, and each declared output name at
its index — and everything printed after it is a prediction or error
line, never a further signature line. -/
theorem c6_printed_signature (w : OrtWorld) (argv : List String)
    (hf : model_path ∈ w.files) (hstd : w.stdExc = none) :
    ∃ rest, (runProgram w argv).output
        = [OutLine.numInputs w.inputNames.length]
            ++ inputNameLines w.inputNames
            ++ [OutLine.numOutputs w.outputNames.length]
            ++ outputNameLines w.outputNames ++ rest
      ∧ ∀ l ∈ rest, l.isSignatureLine = false := by
  by_cases hsh : input_tensor_shape = w.declaredInputShape
  · refine ⟨[OutLine.prediction (w.modelFn input_tensor_values)], ?_, ?_⟩
    · simp [runProgram, applyCatch, tryBody, sessionOpen, sessionRun,
        hf, hstd, hsh]
    · simp [OutLine.isSignatureLine]
  · refine ⟨[OutLine.errorMsg w.runErrMsg], ?_, ?_⟩
    · simp [runProgram, applyCatch, tryBody, sessionOpen, sessionRun,
        hf, hstd, hsh]
    · simp [OutLine.isSignatureLine]

/-- C6 witness: the signature-printing property on a concrete valid
world. -/
theorem c6_printed_signature_witness :
    ∃ rest, (runProgram wGood []).output
        = [OutLine.numInputs wGood.inputNames.length]
            ++ inputNameLines wGood.inputNames
            ++ [OutLine.numOutputs wGood.outputNames.length]
            ++ outputNameLines wGood.outputNames ++ rest
      ∧ ∀ l ∈ rest, l.isSignatureLine = false :=
  c6_printed_signature wGood [] (by decide) rfl

/-- C7: for any valid model with one input named "input" of declared
shape `[1, 4]` and one output, the run prints `Number of inputs = 1`,
the input name, `Number of outputs = 1`, the output name, and a final
`Prediction:` line with the model's value on the hard-coded inputs
`[1, 2, 3, 4]`, and exits with code `0`. -/
theorem c7_example_scenario (w : OrtWorld) (argv : List String)
    (oname : String) (hf : model_path ∈ w.files) (hstd : w.stdExc = none)
    (hin : w.inputNames = ["input"])
    (hsh : w.declaredInputShape = [1, 4])
    (hout : w.outputNames = [oname]) :
    (runProgram w argv).output
      = [OutLine.numInputs 1, OutLine.inputName 0 "input",
         OutLine.numOutputs 1, OutLine.outputName 0 oname,
         OutLine.prediction (w.modelFn input_tensor_values)] ∧
    (runProgram w argv).exit = Except.ok 0 := by
  have hsh2 : input_tensor_shape = w.declaredInputShape := by
    rw [hsh]; rfl
  constructor <;>
    simp [runProgram, applyCatch, tryBody, sessionOpen, sessionRun,
      hf, hstd, hin, hout, hsh2, inputNameLines, outputNameLines,
      List.enum, List.enumFrom]

/-- C7 witness: the example scenario on a concrete valid world with
input "input", shape `[1, 4]`, output "output_label". -/
theorem c7_example_scenario_witness :
    (runProgram wGood []).output
      = [OutLine.numInputs 1, OutLine.inputName 0 "input",
         OutLine.numOutputs 1, OutLine.outputName 0 "output_label",
         OutLine.prediction (wGood.modelFn input_tensor_values)] ∧
    (runProgram wGood []).exit = Except.ok 0 :=
  c7_example_scenario wGood [] "output_label" (by decide) rfl rfl rfl rfl

/-- C8: the run is a deterministic function of the model and the
library behaviour: two invocations against worlds that agree on the
model files, the declared signature, the (non-stochastic) model
function, the library messages and the foreign-exception behaviour —
but may differ in invocation-specific ambient data and in the ignored
argument vector — produce identical observable results. -/
theorem c8_deterministic (w1 w2 : OrtWorld) (argv1 argv2 : List String)
    (h1 : w1.files = w2.files) (h2 : w1.inputNames = w2.inputNames)
    (h3 : w1.outputNames = w2.outputNames)
    (h4 : w1.declaredInputShape = w2.declaredInputShape)
    (h5 : w1.modelFn = w2.modelFn) (h6 : w1.loadErrMsg = w2.loadErrMsg)
    (h7 : w1.runErrMsg = w2.runErrMsg) (h8 : w1.stdExc = w2.stdExc) :
    runProgram w1 argv1 = runProgram w2 argv2 := by
  obtain ⟨f1, i1, o1, d1, m1, l1, r1, s1, a1⟩ := w1
  obtain ⟨f2, i2, o2, d2, m2, l2, r2, s2, a2⟩ := w2
  dsimp only at h1 h2 h3 h4 h5 h6 h7 h8
  subst h1 h2 h3 h4 h5 h6 h7 h8
  rfl

/-- C8 witness: two invocations on the same model with different
ambient data and different (ignored) argument vectors coincide. -/
theorem c8_deterministic_witness :
    runProgram wGood [] = runProgram wGood2 ["--flag"] :=
  c8_deterministic wGood wGood2 [] ["--flag"]
    rfl rfl rfl rfl rfl rfl rfl rfl

/-- C9: the top-level handler catches only the library exception type;
an exception of any other type raised inside the try block (modelled
here as a standard-library allocation failure after session
construction) escapes `main` uncaught — it is not reported on standard
output and not converted to the negative exit code. -/
theorem c9_foreign_exception_escapes (w : OrtWorld) (argv : List String)
    (m : String) (hf : model_path ∈ w.files) (hstd : w.stdExc = some m) :
    (runProgram w argv).exit = Except.error m ∧
    (runProgram w argv).output = [] := by
  constructor <;>
    simp [runProgram, applyCatch, tryBody, sessionOpen, hf, hstd]

/-- C9 witness: a concrete valid world in which a `std::bad_alloc` is
raised inside the try block. -/
theorem c9_foreign_exception_escapes_witness :
    (runProgram wStdExc []).exit = Except.error "std::bad_alloc" ∧
    (runProgram wStdExc []).output = [] :=
  c9_foreign_exception_escapes wStdExc [] "std::bad_alloc" (by decide) rfl

/-- C10: the model path consulted is the hard-coded constant
`../random_forest_model_v9.onnx` on every execution: the session is
opened on exactly that path whatever the world, and the program
ignores its argument vector entirely, so the path is not
caller-suppliable at the program's public interface. -/
theorem c10_hardcoded_model_path (w : OrtWorld) (argv : List String) :
    model_path = "../random_forest_model_v9.onnx" ∧
    (runProgram w argv).openedPaths = [model_path] ∧
    runProgram w argv = runProgram w [] :=
  ⟨rfl, runProgram_openedPaths w argv, rfl⟩

end LoadOnnxModel
